import Mathlib

/-!
Verification of the Windows Desktop Automator recipe engine.

Shallow embedding of the core recipe-execution engine of
`windows_desktop_automator` (Python), together with proofs about it.

The embedding covers:
* the recipe DSL data model and its field validators
  (`src/automator/core/dsl.py`): `WindowSelector`, `ElementSelector`,
  selector entropy scoring, selector fallback generation, step-list
  validation, and `${name}` variable substitution;
* the step execution state machine and the orchestrator's step
  sequencing (`src/automator/core/main.py`: `_execute_step`,
  `execute_recipe`);
* the element-resolution query loop
  (`src/automator/providers/ui.py`: `UIProvider._find_element`).

Python conventions carried over by the embedding:
* optional string fields are `Option String`; Python truthiness of such a
  field (`if self.field:`) is `pyTruthy`, which is `false` both for `None`
  and for the empty string;
* Python `int` list indices (which may be negative) are `Int`;
* raised exceptions in fallible validators are `Except.error`;
* external backends (UI enumeration, action handlers) are abstracted as
  explicit function parameters, so that theorems quantify over every
  possible backend behaviour.
-/

namespace Automator

/-- Python truthiness of an optional string: `None` and `""` are falsy,
every other string is truthy.  This is the test performed by
`if self.some_field:` throughout `dsl.py` and `ui.py`. -/
def pyTruthy : Option String → Bool
  | none => false
  | some s => !(s == "")

/-- Model of `ElementSelector` from `src/automator/core/dsl.py` (lines 53-62):
seven optional string criteria plus an optional integer `index`
(pydantic default `0`). -/
structure ElementSelector where
  automation_id : Option String := none
  control_type : Option String := none
  class_name : Option String := none
  name : Option String := none
  value : Option String := none
  help_text : Option String := none
  accessible_name : Option String := none
  index : Option Int := some 0
  deriving Repr, DecidableEq

namespace ElementSelector

/-- Method `ElementSelector.get_selector_entropy_score` (`dsl.py` lines 64-83):
starts from `score = 0` and adds a fixed weight for each truthy field,
in the source's order. -/
def get_selector_entropy_score (e : ElementSelector) : Nat :=
  let score := 0
  let score := if pyTruthy e.automation_id then score + 10 else score
  let score := if pyTruthy e.control_type then score + 5 else score
  let score := if pyTruthy e.class_name then score + 3 else score
  let score := if pyTruthy e.name then score + 2 else score
  let score := if pyTruthy e.value then score + 2 else score
  let score := if pyTruthy e.help_text then score + 1 else score
  let score := if pyTruthy e.accessible_name then score + 1 else score
  score

/-- Method `ElementSelector.has_selectors` (`dsl.py` lines 85-90): `any` over the
seven criteria fields (truthiness, `index` not included). -/
def has_selectors (e : ElementSelector) : Bool :=
  pyTruthy e.automation_id || pyTruthy e.control_type ||
  pyTruthy e.class_name || pyTruthy e.name || pyTruthy e.value ||
  pyTruthy e.help_text || pyTruthy e.accessible_name

end ElementSelector

/-- The weight table of `get_selector_entropy_score`, as (presence, weight)
pairs in source order.  Used to state that the score is additive over the
present (truthy) fields. -/
def selectorWeightTable (e : ElementSelector) : List (Bool × Nat) :=
  [(pyTruthy e.automation_id, 10),
   (pyTruthy e.control_type, 5),
   (pyTruthy e.class_name, 3),
   (pyTruthy e.name, 2),
   (pyTruthy e.value, 2),
   (pyTruthy e.help_text, 1),
   (pyTruthy e.accessible_name, 1)]

/-- The sum of the weights of the present fields of a selector. -/
def presentWeightSum (e : ElementSelector) : Nat :=
  (((selectorWeightTable e).filter Prod.fst).map Prod.snd).sum

/-- The first fallback built by `RecipeValidator.validate_selector_fallbacks`
(`dsl.py` lines 232-237): `ElementSelector(control_type=..., name=...,
index=...)`, all other fields left at their pydantic default `None`. -/
def controlTypeNameFallback (e : ElementSelector) : ElementSelector :=
  { control_type := e.control_type, name := e.name, index := e.index }

/-- The second fallback built by `RecipeValidator.validate_selector_fallbacks`
(`dsl.py` lines 239-245): `ElementSelector(class_name=..., name=...,
index=...)`. -/
def classNameNameFallback (e : ElementSelector) : ElementSelector :=
  { class_name := e.class_name, name := e.name, index := e.index }

/-- Method `RecipeValidator.validate_selector_fallbacks` (`dsl.py` lines 225-247):
when `automation_id` is truthy, append a (control_type, name) fallback if
both those fields are truthy, then a (class_name, name) fallback if both
those fields are truthy; otherwise return the empty list. -/
def validate_selector_fallbacks (e : ElementSelector) : List ElementSelector :=
  if pyTruthy e.automation_id then
    (if pyTruthy e.control_type && pyTruthy e.name then
       [controlTypeNameFallback e] else [])
    ++ (if pyTruthy e.class_name && pyTruthy e.name then
       [classNameNameFallback e] else [])
  else []

/-- Model of `WindowSelector` from `src/automator/core/dsl.py` (lines 40-50). -/
structure WindowSelector where
  name : Option String := none
  class_name : Option String := none
  process_id : Option Int := none
  deriving Repr, DecidableEq

namespace WindowSelector

/-- The `validate_name` pydantic validator of `WindowSelector`
(`dsl.py` lines 46-50): `if v and len(v) < 2: raise ValueError(...)`.
The truthiness test means the check is skipped for `None` *and* for the
empty string. -/
def validate_name (v : Option String) : Except String (Option String) :=
  match v with
  | none => .ok none
  | some s =>
    if s ≠ "" ∧ s.length < 2 then
      .error "Window name must be at least 2 characters long"
    else .ok (some s)

/-- Whether `validate_name` accepts the given value. -/
def nameAccepted (v : Option String) : Bool :=
  match validate_name v with
  | .ok _ => true
  | .error _ => false

end WindowSelector

/-! Step execution state machine (`src/automator/core/main.py`) -/

/-- Outcome of a single invocation of a dispatched action handler, as seen
by `_execute_step`'s `try` block (`main.py` lines 127-162): the handler
either raises an exception or returns a boolean result.  A falsy result is
converted by the source into `raise RuntimeError("Action returned False")`,
so it flows into the same `except` branch as a raised exception. -/
inductive HandlerOutcome where
  | raised
  | returned (truthy : Bool)
  deriving Repr, DecidableEq

/-- Whether a handler outcome makes the attempt succeed: only a truthy
returned result does (`main.py` lines 159-162). -/
def isSuccessOutcome : HandlerOutcome → Bool
  | .returned true => true
  | _ => false

/-- The fixed dispatch table of `_execute_step` (`main.py` lines 132-155):
the action kinds for which an `elif` branch exists, in source order.  Any
other kind reaches the final `else`, which raises
`ValueError(f"Unsupported action type: ...")` (line 157). -/
def actionDispatchTable : List String :=
  ["launch", "wait_for", "click", "type", "hotkey", "verify", "read_text",
   "file_write", "file_read", "file_copy", "screenshot", "ocr_text"]

/-- One attempt's outcome after dispatch: for an action kind in the table
the given backend handler runs; for any other kind the `else` branch raises
(`main.py` line 157), which the embedding records as `.raised`. -/
def dispatchOutcome (action : String) (handler : Nat → HandlerOutcome)
    (attempt : Nat) : HandlerOutcome :=
  if action ∈ actionDispatchTable then handler attempt else .raised

/-- Observable trace of `_execute_step`: how many attempts ran, how many
`time.sleep(step.retry_delay)` calls happened (`main.py` line 171), and the
boolean the method returned. -/
structure ExecTrace where
  attempts : Nat
  sleeps : Nat
  success : Bool
  deriving Repr, DecidableEq

/-- The retry loop body of `_execute_step` (`main.py` lines 126-177):
`for attempt in range(1, step.retry_attempts + 1)`.  `attempt` is the
1-based attempt number; `remaining` counts the loop iterations still
available (structural recursion).  On success the loop returns `True`
immediately; on failure with attempts remaining it sleeps `retry_delay`
once and retries; on failure on the last attempt it falls out of the loop
and returns `False`. -/
def execAttempts (outcome : Nat → HandlerOutcome) :
    (attempt : Nat) → (remaining : Nat) → ExecTrace
  | _, 0 => { attempts := 0, sleeps := 0, success := false }
  | attempt, remaining + 1 =>
    if isSuccessOutcome (outcome attempt) then
      { attempts := 1, sleeps := 0, success := true }
    else if remaining = 0 then
      { attempts := 1, sleeps := 0, success := false }
    else
      let t := execAttempts outcome (attempt + 1) remaining
      { attempts := t.attempts + 1, sleeps := t.sleeps + 1,
        success := t.success }

/-- Method `AutomationOrchestrator._execute_step` (`main.py` lines 122-177) for a
step whose action kind is `action` and whose per-attempt backend behaviour
is `handler`, with `retry_attempts = n`.  (Variable substitution, which the
source re-applies at the start of every attempt, does not affect the
attempt/sleep/result trace and is modelled separately.) -/
def executeStep (action : String) (handler : Nat → HandlerOutcome)
    (n : Nat) : ExecTrace :=
  execAttempts (dispatchOutcome action handler) 1 n

/-! Orchestrator step sequencing (`execute_recipe`, `main.py` 70-120) -/

/-- One step of a run as the orchestrator sees it: its action kind, its
backend behaviour per attempt, its retry budget and its
`continue_on_failure` flag. -/
structure StepRun where
  action : String
  handler : Nat → HandlerOutcome
  retry_attempts : Nat
  continue_on_failure : Bool

/-- Whether `_execute_step` reports success for this step. -/
def stepSucceeds (s : StepRun) : Bool :=
  (executeStep s.action s.handler s.retry_attempts).success

/-- The step loop of `execute_recipe` (`main.py` lines 93-108): iterate the
steps in order; a failed step with `continue_on_failure == False` sets
`success = False` and `break`s, any other outcome moves on to the next
step.  Returns the final `success` flag and the number of steps that were
executed (the loop index reached). -/
def executeRecipe : List StepRun → Bool × Nat
  | [] => (true, 0)
  | s :: rest =>
    if stepSucceeds s then
      let r := executeRecipe rest
      (r.1, r.2 + 1)
    else if s.continue_on_failure then
      let r := executeRecipe rest
      (r.1, r.2 + 1)
    else
      (false, 1)

/-! Recipe step-list validation (`dsl.py` lines 119-165) -/

/-- Model of `Target` from `src/automator/core/dsl.py` (lines 93-116), restricted to
the fields the validated claims touch (`region` is a mapping validated
separately and is not needed here). -/
structure Target where
  app : Option String := none
  window : Option WindowSelector := none
  element : Option ElementSelector := none
  file_path : Option String := none
  text : Option String := none
  deriving Repr, DecidableEq

/-- Model of `ActionStep` from `src/automator/core/dsl.py` (lines 119-140).
`retry_delay` (a float, default 1.0) is omitted: no validator reads it and
the step-list validator below only looks at the list, never inside a step. -/
structure ActionStep where
  name : String
  action : String
  target : Target := {}
  timeout : Int := 10
  retry_attempts : Int := 3
  verify_after : Bool := true
  continue_on_failure : Bool := false
  deriving Repr, DecidableEq

/-- The `validate_steps` pydantic validator of `Recipe`
(`dsl.py` lines 159-165): an empty (falsy) list raises, a list of more
than 100 steps raises, anything else is returned unchanged. -/
def validate_steps (v : List ActionStep) : Except String (List ActionStep) :=
  if v.isEmpty then .error "Recipe must contain at least one step"
  else if v.length > 100 then
    .error "Recipe cannot contain more than 100 steps"
  else .ok v

/-- Whether `validate_steps` accepts the given step list. -/
def stepsAccepted (v : List ActionStep) : Bool :=
  match validate_steps v with
  | .ok _ => true
  | .error _ => false

/-! Element resolution (`src/automator/providers/ui.py`, `_find_element`)

The backend call `window.descendants(**criteria)` is abstracted as a
function from a query to the list of matching element handles (handles are
`Nat`).  Window resolution (lines 391-400) happens before the query loop
and is orthogonal to the claims about it. -/

/-- One entry of the `search_criteria` list built by `_find_element`
(`ui.py` lines 402-427): the keyword-argument sets passed to
`window.descendants`. -/
inductive ElementQuery where
  | byAutoId (auto_id : String)
  | byControlTypeName (control_type title : String)
  | byClassNameName (class_name title : String)
  | byName (title : String)
  | byControlType (control_type : String)
  deriving Repr, DecidableEq

/-- The `search_criteria` list of `_find_element` (`ui.py` lines 402-427),
built in the source's entropy order: automation_id; control_type+name;
class_name+name; name; control_type.  Each entry is appended only when the
corresponding selector fields are truthy. -/
def buildSearchCriteria (e : ElementSelector) : List ElementQuery :=
  (if pyTruthy e.automation_id then
     [.byAutoId (e.automation_id.getD "")] else [])
  ++ (if pyTruthy e.control_type && pyTruthy e.name then
     [.byControlTypeName (e.control_type.getD "") (e.name.getD "")] else [])
  ++ (if pyTruthy e.class_name && pyTruthy e.name then
     [.byClassNameName (e.class_name.getD "") (e.name.getD "")] else [])
  ++ (if pyTruthy e.name then [.byName (e.name.getD "")] else [])
  ++ (if pyTruthy e.control_type then
     [.byControlType (e.control_type.getD "")] else [])

/-- Python list indexing `elements[index]` with a possibly negative `int`
index: a negative index counts from the end; an index out of range on
either side raises `IndexError`, which the embedding reports as `none`. -/
def pyListGet (l : List Nat) (i : Int) : Option Nat :=
  if 0 ≤ i then l[i.toNat]?
  else if 0 ≤ i + l.length then l[(i + l.length).toNat]?
  else none

/-- Expression `index = element_selector.index or 0` (`ui.py` line 435): `None` (and,
vacuously, `0` itself) becomes `0`; any other value is kept. -/
def pyIndexOr (i : Option Int) : Int :=
  match i with
  | none => 0
  | some v => v

/-- The query loop of `_find_element` (`ui.py` lines 430-441):
```
for criteria in search_criteria:
    try:
        elements = window.descendants(**criteria)
        if elements:
            index = element_selector.index or 0
            if index < len(elements):
                return elements[index]
    except Exception:
        continue
return None
```
Note that when `elements` is non-empty but `index` is not below
`len(elements)`, the loop body simply ends and the `for` loop moves on to
the next criteria set; the same happens when `elements[index]` raises
`IndexError` (a negative index below `-len(elements)`), because the
`except` clause `continue`s. -/
def findElementLoop (desc : ElementQuery → List Nat) (idx : Int) :
    List ElementQuery → Option Nat
  | [] => none
  | q :: rest =>
    let elements := desc q
    if elements.isEmpty then findElementLoop desc idx rest
    else if idx < (elements.length : Int) then
      match pyListGet elements idx with
      | some x => some x
      | none => findElementLoop desc idx rest
    else findElementLoop desc idx rest

/-- Method `UIProvider._find_element` (`ui.py` lines 387-444), from the point
where the parent window has been resolved: build the ordered criteria list
and run the query loop against the backend's enumeration `desc`. -/
def find_element (desc : ElementQuery → List Nat) (e : ElementSelector) :
    Option Nat :=
  findElementLoop desc (pyIndexOr e.index) (buildSearchCriteria e)

/-! Variable substitution (`dsl.py` lines 171-180)

`Recipe.substitute_variables` is
`re.sub(r'\$\{([^}]+)\}', replace_var, text)` where `replace_var` returns
`str(self.variables.get(var_name, match.group(0)))`.

The regex engine scans the text left to right and, at each position, tries
to match `${`, then a non-empty greedy run of characters other than `}`,
then `}` — so a match is exactly a `${`, the (non-empty) characters up to
the *first* following `}`, and that `}`.  After a match, scanning resumes
past the consumed `}`, and the replacement text is never rescanned.  The
scan is embedded below as a three-state character automaton, which is
structurally recursive (a match always starts with `$`, so after a failed
`${`-prefix the scan can resume without rewinding):

* `normal` — not inside a potential match;
* `dollar` — a `$` was just consumed that may open `${`;
* `name acc` — inside `${…`, `acc` holding the name characters consumed so
  far in reverse order.

The recipe's `variables` dict is an association list whose values are the
already-stringified `str(value)` results; `varsLookup` is `dict.get`. -/

/-- Lookup `dict.get` on the recipe's variable mapping (first matching key). -/
def varsLookup : List (String × String) → String → Option String
  | [], _ => none
  | (k, v) :: rest, key => if k = key then some v else varsLookup rest key

/-- State of the left-to-right regex scan of `re.sub(r'\$\{([^}]+)\}', …)`. -/
inductive SubstState where
  | normal
  | dollar
  | name (acc : List Char)
  deriving Repr, DecidableEq

/-- The scan of `Recipe.substitute_variables` (`dsl.py` lines 171-180) over
the text's characters.  A completed match `${name}` with a non-empty `name`
is replaced by `str(variables.get(name, match))`: the stringified value if
the name is a key, the matched text itself (verbatim) otherwise.  An
unterminated or empty `${…` prefix is emitted verbatim (the regex does not
match it). -/
def substChars (vars : List (String × String)) :
    SubstState → List Char → List Char
  | .normal, [] => []
  | .dollar, [] => ['$']
  | .name acc, [] => '$' :: '{' :: acc.reverse
  | .normal, c :: cs =>
    if c = '$' then substChars vars .dollar cs
    else c :: substChars vars .normal cs
  | .dollar, c :: cs =>
    if c = '{' then substChars vars (.name []) cs
    else if c = '$' then '$' :: substChars vars .dollar cs
    else '$' :: c :: substChars vars .normal cs
  | .name acc, c :: cs =>
    if c = '}' then
      if acc.isEmpty then '$' :: '{' :: '}' :: substChars vars .normal cs
      else
        match varsLookup vars (String.mk acc.reverse) with
        | some v => v.data ++ substChars vars .normal cs
        | none => '$' :: '{' :: acc.reverse ++ '}' :: substChars vars .normal cs
    else substChars vars (.name (c :: acc)) cs

/-- Method `Recipe.substitute_variables` for string input (`dsl.py` lines
171-180): run the scan from the `normal` state over the whole text. -/
def substitute_variables (vars : List (String × String)) (text : String) :
    String :=
  String.mk (substChars vars .normal text.data)

/-- The decomposition of a text into the literal characters and the
`${name}` matches found by the same scan.  This is the spec-side view of
substitution: it identifies every placeholder occurrence independently of
the variable mapping. -/
inductive SubTok where
  | lit (c : Char)
  | ph (name : List Char)
  deriving Repr, DecidableEq

/-- Tokenize the text with the same left-to-right scan as `substChars`:
one `ph name` token per regex match `${name}`, one `lit` token per
character not consumed by any match. -/
def tokenizeChars : SubstState → List Char → List SubTok
  | .normal, [] => []
  | .dollar, [] => [.lit '$']
  | .name acc, [] => .lit '$' :: .lit '{' :: acc.reverse.map .lit
  | .normal, c :: cs =>
    if c = '$' then tokenizeChars .dollar cs
    else .lit c :: tokenizeChars .normal cs
  | .dollar, c :: cs =>
    if c = '{' then tokenizeChars (.name []) cs
    else if c = '$' then .lit '$' :: tokenizeChars .dollar cs
    else .lit '$' :: .lit c :: tokenizeChars .normal cs
  | .name acc, c :: cs =>
    if c = '}' then
      if acc.isEmpty then
        .lit '$' :: .lit '{' :: .lit '}' :: tokenizeChars .normal cs
      else .ph acc.reverse :: tokenizeChars .normal cs
    else tokenizeChars (.name (c :: acc)) cs

/-- Render one token under a variable mapping: a literal is itself, a
placeholder is its value when its name is a key and the verbatim
`${name}` text otherwise. -/
def renderTok (vars : List (String × String)) : SubTok → List Char
  | .lit c => [c]
  | .ph nm =>
    match varsLookup vars (String.mk nm) with
    | some v => v.data
    | none => '$' :: '{' :: (nm ++ ['}'])

/-- Render one token verbatim (as the original text it came from). -/
def verbatimTok : SubTok → List Char
  | .lit c => [c]
  | .ph nm => '$' :: '{' :: (nm ++ ['}'])

/-- Whether a token is not a substitutable placeholder under a mapping: a
literal always, a placeholder exactly when its name is not a key. -/
def phAbsent (vars : List (String × String)) : SubTok → Bool
  | .lit _ => true
  | .ph nm => (varsLookup vars (String.mk nm)).isNone

/-- A text has no substitutable placeholder left when none of its
placeholder occurrences names a key of the mapping. -/
def noSubstitutablePh (vars : List (String × String)) (cs : List Char) :
    Bool :=
  (tokenizeChars .normal cs).all (phAbsent vars)

/-- Concatenation of the renderings of a token list under a mapping. -/
def renderAll (vars : List (String × String)) : List SubTok → List Char
  | [] => []
  | t :: ts => renderTok vars t ++ renderAll vars ts

/-- Concatenation of the verbatim renderings of a token list. -/
def verbatimAll : List SubTok → List Char
  | [] => []
  | t :: ts => verbatimTok t ++ verbatimAll ts

/-- The raw text a scan state stands for: the characters already consumed
by a potential match that has not completed yet. -/
def stateRaw : SubstState → List Char
  | .normal => []
  | .dollar => ['$']
  | .name acc => '$' :: '{' :: acc.reverse

/-! Concrete fixtures used by counterexamples and witnesses. -/

/-- Fixture backend enumeration for element resolution: the automation_id
query matches a single element, the name query matches two. -/
def descFixture : ElementQuery → List Nat
  | .byAutoId "a" => [7]
  | .byName "n" => [20, 21]
  | _ => []

/-- Fixture selector: automation_id and name set, `index = 1`. -/
def selFixture : ElementSelector :=
  { automation_id := some "a", name := some "n", index := some 1 }

/-- Fixture selector with automation_id, control_type, class_name and name
all set (the shape used by the fallback-generation tests). -/
def richSelFixture : ElementSelector :=
  { automation_id := some "primary_id", control_type := some "Button",
    class_name := some "btn-class", name := some "Submit" }

/-- Fixture handler that raises on every attempt. -/
def alwaysRaise : Nat → HandlerOutcome := fun _ => .raised

/-- Fixture handler that returns a truthy result on every attempt. -/
def alwaysTrue : Nat → HandlerOutcome := fun _ => .returned true

/-- Fixture handler that returns a falsy result on every attempt. -/
def alwaysFalse : Nat → HandlerOutcome := fun _ => .returned false

/-- Fixture step that succeeds on its first attempt. -/
def okStepFixture : StepRun :=
  { action := "click", handler := alwaysTrue, retry_attempts := 1,
    continue_on_failure := false }

/-- Fixture step whose handler always raises and which aborts the run on
failure. -/
def failStepFixture : StepRun :=
  { action := "click", handler := alwaysRaise, retry_attempts := 2,
    continue_on_failure := false }

end Automator

section Scratch

open Automator

example : (ElementSelector.get_selector_entropy_score
    { automation_id := some "unique_id" }) = 10 := by decide

example : (ElementSelector.get_selector_entropy_score
    { control_type := some "Button", name := some "Submit",
      class_name := some "btn-class" }) = 10 := by decide

example : (ElementSelector.get_selector_entropy_score {}) = 0 := by decide

example : validate_selector_fallbacks
    { automation_id := some "primary_id", control_type := some "Button",
      class_name := some "btn-class", name := some "Submit" } =
    [{ control_type := some "Button", name := some "Submit", index := some 0 },
     { class_name := some "btn-class", name := some "Submit", index := some 0 }] := by
  decide

example : WindowSelector.nameAccepted (some "") = true := by decide

example : WindowSelector.nameAccepted (some "A") = false := by decide

example : WindowSelector.nameAccepted (some "AB") = true := by decide

example : executeStep "zoom" (fun _ => .returned true) 3 =
    { attempts := 3, sleeps := 2, success := false } := by decide

example : executeStep "click" (fun _ => .returned false) 3 =
    { attempts := 3, sleeps := 2, success := false } := by decide

example : executeStep "click" (fun a => .returned (a == 2)) 3 =
    { attempts := 2, sleeps := 1, success := true } := by decide

example : executeRecipe
    [{ action := "click", handler := fun _ => .raised, retry_attempts := 2,
       continue_on_failure := false },
     { action := "click", handler := fun _ => .returned true,
       retry_attempts := 1, continue_on_failure := false }] = (false, 1) := by
  decide

example : executeRecipe
    [{ action := "click", handler := fun _ => .raised, retry_attempts := 2,
       continue_on_failure := true },
     { action := "click", handler := fun _ => .returned true,
       retry_attempts := 1, continue_on_failure := false }] = (true, 2) := by
  decide

example : stepsAccepted [] = false := by decide

example : stepsAccepted [{ name := "s", action := "click" }] = true := by
  decide

example : substitute_variables [("name", "World")] "Hello ${name}!" =
    "Hello World!" := by decide

example : substitute_variables [] "Hello ${missing}!" =
    "Hello ${missing}!" := by decide

example : substitute_variables [("name", "World"), ("count", "5")]
    "${name} has ${count} items" = "World has 5 items" := by decide

example : substitute_variables [("a", "x")] "$${a} $\x7b\x7d $\x7bb" =
    "$x $\x7b\x7d $\x7bb" := by decide

example : substitute_variables [("x$\x7by", "V")] "$\x7bx$\x7by\x7dz" = "Vz" := by
  decide

example : substitute_variables [("$\x7ba", "X")] "$\x7b$\x7ba\x7d\x7d" = "X\x7d" := by decide

example : substitute_variables [("a", "$")] "${a}{b}" = "${b}" := by decide

example :
    find_element
      (fun q => match q with
        | .byAutoId "a" => [7]
        | .byName "n" => [20, 21]
        | _ => [])
      { automation_id := some "a", name := some "n", index := some 1 } =
    some 21 := by decide

end Scratch

namespace Automator

/-! Proofs.  Helper lemmas come first, then one theorem per verified
property, each with a doc comment naming the property. -/

theorem pyTruthy_none : pyTruthy none = false := rfl

theorem entropy_eq_presentWeightSum (e : ElementSelector) :
    e.get_selector_entropy_score = presentWeightSum e := by
  cases h1 : pyTruthy e.automation_id <;>
    cases h2 : pyTruthy e.control_type <;>
      cases h3 : pyTruthy e.class_name <;>
        cases h4 : pyTruthy e.name <;>
          cases h5 : pyTruthy e.value <;>
            cases h6 : pyTruthy e.help_text <;>
              cases h7 : pyTruthy e.accessible_name <;>
                simp [ElementSelector.get_selector_entropy_score,
                  presentWeightSum, selectorWeightTable, h1, h2, h3, h4, h5,
                  h6, h7]

theorem entropy_score_eval (e : ElementSelector) :
    e.get_selector_entropy_score =
      (if pyTruthy e.automation_id then 10 else 0) +
      (if pyTruthy e.control_type then 5 else 0) +
      (if pyTruthy e.class_name then 3 else 0) +
      (if pyTruthy e.name then 2 else 0) +
      (if pyTruthy e.value then 2 else 0) +
      (if pyTruthy e.help_text then 1 else 0) +
      (if pyTruthy e.accessible_name then 1 else 0) := by
  cases h1 : pyTruthy e.automation_id <;>
    cases h2 : pyTruthy e.control_type <;>
      cases h3 : pyTruthy e.class_name <;>
        cases h4 : pyTruthy e.name <;>
          cases h5 : pyTruthy e.value <;>
            cases h6 : pyTruthy e.help_text <;>
              cases h7 : pyTruthy e.accessible_name <;>
                simp [ElementSelector.get_selector_entropy_score, h1, h2, h3,
                  h4, h5, h6, h7]

/-- **C8.** For every `ElementSelector`, `get_selector_entropy_score` is
the sum, over the fields that are present (truthy), of the fixed weights
automation_id=10, control_type=5, class_name=3, name=2, value=2,
help_text=1, accessible_name=1, and the score of a selector with no
fields present is exactly 0.  (Determinism is immediate: the embedded
function depends on nothing but the selector.) -/
theorem entropy_score_additive :
    (∀ e : ElementSelector,
        e.get_selector_entropy_score = presentWeightSum e) ∧
    ElementSelector.get_selector_entropy_score {} = 0 :=
  ⟨entropy_eq_presentWeightSum, rfl⟩

/-- **C9.** `validate_selector_fallbacks` returns the empty list when
`automation_id` is absent; when `automation_id` is present it returns, in
order, the (control_type, name) fallback exactly when both those fields
are present, then the (class_name, name) fallback exactly when both those
fields are present — in particular, with all four of automation_id,
control_type, class_name and name set it returns exactly those two
fallbacks in that order — and every returned fallback carries the source
selector's `index` and has no `automation_id`.  ("Present" is Python
truthiness: set and non-empty.) -/
theorem selector_fallbacks_characterization :
    (∀ e : ElementSelector, pyTruthy e.automation_id = false →
        validate_selector_fallbacks e = []) ∧
    (∀ e : ElementSelector, pyTruthy e.automation_id = true →
        validate_selector_fallbacks e =
          (if pyTruthy e.control_type && pyTruthy e.name then
            [controlTypeNameFallback e] else [])
          ++ (if pyTruthy e.class_name && pyTruthy e.name then
            [classNameNameFallback e] else [])) ∧
    (∀ (e fb : ElementSelector), fb ∈ validate_selector_fallbacks e →
        fb.index = e.index ∧ fb.automation_id = none) ∧
    (∀ e : ElementSelector, pyTruthy e.automation_id = true →
        pyTruthy e.control_type = true → pyTruthy e.class_name = true →
        pyTruthy e.name = true →
        validate_selector_fallbacks e =
          [controlTypeNameFallback e, classNameNameFallback e]) := by
  refine ⟨fun e h => ?_, fun e h => ?_, fun e fb h => ?_, fun e h1 h2 h3 h4 => ?_⟩
  · simp [validate_selector_fallbacks, h]
  · simp [validate_selector_fallbacks, h]
  · unfold validate_selector_fallbacks at h
    split_ifs at h <;>
      simp_all [controlTypeNameFallback, classNameNameFallback] <;>
        rcases h with h | h <;>
          simp_all [controlTypeNameFallback, classNameNameFallback]
  · simp [validate_selector_fallbacks, h1, h2, h3, h4]

/-- Witness for C9: the fallback characterization evaluated on a selector
with all four relevant fields set. -/
theorem selector_fallbacks_characterization_witness :
    pyTruthy richSelFixture.automation_id = true ∧
    validate_selector_fallbacks richSelFixture =
      [controlTypeNameFallback richSelFixture,
       classNameNameFallback richSelFixture] :=
  ⟨by decide,
   selector_fallbacks_characterization.2.2.2 richSelFixture (by decide)
     (by decide) (by decide) (by decide)⟩

/-- **C10.** Every fallback produced by `validate_selector_fallbacks` from
a selector with `automation_id` present has an entropy score lower than
the source selector's by at least 10 (hence strictly lower): the
automation_id weight is dropped and the fallback's fields are a subset of
the source's remaining fields. -/
theorem fallback_entropy_strictly_lower :
    ∀ (e fb : ElementSelector), pyTruthy e.automation_id = true →
      fb ∈ validate_selector_fallbacks e →
      fb.get_selector_entropy_score + 10 ≤ e.get_selector_entropy_score := by
  intro e fb haid hmem
  unfold validate_selector_fallbacks at hmem
  rw [haid] at hmem
  simp only [if_true, List.mem_append] at hmem
  rcases hmem with h | h
  · by_cases hcond : (pyTruthy e.control_type && pyTruthy e.name) = true
    · rw [if_pos hcond] at h
      simp only [List.mem_singleton] at h
      subst h
      obtain ⟨hA, hB⟩ :
          pyTruthy e.control_type = true ∧ pyTruthy e.name = true := by
        simpa using hcond
      rw [entropy_score_eval, entropy_score_eval]
      simp only [controlTypeNameFallback, pyTruthy_none, haid, hA, hB]
      split_ifs <;> simp_all
    · rw [if_neg hcond] at h
      exact absurd h (List.not_mem_nil _)
  · by_cases hcond : (pyTruthy e.class_name && pyTruthy e.name) = true
    · rw [if_pos hcond] at h
      simp only [List.mem_singleton] at h
      subst h
      obtain ⟨hA, hB⟩ :
          pyTruthy e.class_name = true ∧ pyTruthy e.name = true := by
        simpa using hcond
      rw [entropy_score_eval, entropy_score_eval]
      simp only [classNameNameFallback, pyTruthy_none, haid, hA, hB]
      split_ifs <;> simp_all
    · rw [if_neg hcond] at h
      exact absurd h (List.not_mem_nil _)

/-- Witness for C10: evaluated on the all-fields selector fixture and its
first fallback. -/
theorem fallback_entropy_strictly_lower_witness :
    (pyTruthy richSelFixture.automation_id = true ∧
     controlTypeNameFallback richSelFixture ∈
       validate_selector_fallbacks richSelFixture) ∧
    (controlTypeNameFallback richSelFixture).get_selector_entropy_score + 10 ≤
      richSelFixture.get_selector_entropy_score :=
  ⟨⟨by decide, by decide⟩,
   fallback_entropy_strictly_lower richSelFixture
     (controlTypeNameFallback richSelFixture) (by decide) (by decide)⟩

/-- Counterexample for C5: the claim says every name shorter than 2
characters, including the empty string, is rejected; but `validate_name`
accepts the empty string, because the Python guard `if v and len(v) < 2`
treats the falsy empty string like `None`. -/
theorem window_name_empty_string_accepted :
    ("" : String).length < 2 ∧
    WindowSelector.validate_name (some "") = Except.ok (some "") :=
  ⟨by decide, rfl⟩

/-- **C5 (amended).** A present window name is rejected at validation time
iff it is non-empty and shorter than 2 characters (length exactly 1); an
absent name, the empty string, and any name of length at least 2 are
accepted. -/
theorem window_name_validation_characterization :
    ∀ v : Option String, WindowSelector.nameAccepted v = true ↔
      (v = none ∨ v = some "" ∨ ∃ s, v = some s ∧ 2 ≤ s.length) := by
  intro v
  cases v with
  | none => simp [WindowSelector.nameAccepted, WindowSelector.validate_name]
  | some s =>
    by_cases h : s ≠ "" ∧ s.length < 2
    · obtain ⟨h1, h2⟩ := h
      have hval : WindowSelector.validate_name (some s) =
          if s ≠ "" ∧ s.length < 2 then
            Except.error "Window name must be at least 2 characters long"
          else Except.ok (some s) := rfl
      have hacc : WindowSelector.nameAccepted (some s) = false := by
        unfold WindowSelector.nameAccepted
        rw [hval, if_pos ⟨h1, h2⟩]
      rw [hacc]
      simp only [Bool.false_eq_true, false_iff, not_or]
      refine ⟨by simp, ?_, ?_⟩
      · simp only [Option.some.injEq]
        exact h1
      · rintro ⟨t, ht, hlen⟩
        rw [Option.some.injEq] at ht
        subst ht
        omega
    · have hval : WindowSelector.validate_name (some s) =
          if s ≠ "" ∧ s.length < 2 then
            Except.error "Window name must be at least 2 characters long"
          else Except.ok (some s) := rfl
      have hacc : WindowSelector.nameAccepted (some s) = true := by
        unfold WindowSelector.nameAccepted
        rw [hval, if_neg h]
      rw [hacc]
      simp only [true_iff]
      rw [not_and_or] at h
      rcases h with h | h
      · have hs : s = "" := not_not.mp h
        right
        left
        rw [hs]
      · right
        right
        exact ⟨s, rfl, by omega⟩

/-- **C6.** The step-list validator accepts a steps list exactly when its
length is between 1 and 100 inclusive: 0 steps or more than 100 steps is
rejected with a validation error, anything in range passes. -/
theorem steps_count_validation :
    ∀ steps : List ActionStep, stepsAccepted steps = true ↔
      (1 ≤ steps.length ∧ steps.length ≤ 100) := by
  intro steps
  have hlen : steps.isEmpty = true ↔ steps.length = 0 := by
    rw [List.isEmpty_iff, List.length_eq_zero]
  by_cases h1 : steps.isEmpty = true
  · have hacc : stepsAccepted steps = false := by
      unfold stepsAccepted validate_steps
      rw [if_pos h1]
    rw [hacc]
    have h0 : steps.length = 0 := hlen.mp h1
    simp only [Bool.false_eq_true, false_iff, not_and]
    omega
  · have h0 : ¬ steps.length = 0 := fun hl => h1 (hlen.mpr hl)
    by_cases h2 : steps.length > 100
    · have hacc : stepsAccepted steps = false := by
        unfold stepsAccepted validate_steps
        rw [if_neg h1, if_pos h2]
      rw [hacc]
      simp only [Bool.false_eq_true, false_iff, not_and]
      omega
    · have hacc : stepsAccepted steps = true := by
        unfold stepsAccepted validate_steps
        rw [if_neg h1, if_neg h2]
      rw [hacc]
      simp only [true_iff]
      exact ⟨by omega, by omega⟩


theorem execAttempts_all_fail (outcome : Nat → HandlerOutcome)
    (h : ∀ a, isSuccessOutcome (outcome a) = false) :
    ∀ (remaining attempt : Nat), 1 ≤ remaining →
      execAttempts outcome attempt remaining =
        { attempts := remaining, sleeps := remaining - 1,
          success := false } := by
  intro remaining
  induction remaining with
  | zero => intro attempt hr; omega
  | succ m ih =>
    intro attempt _
    rw [execAttempts]
    rw [h attempt]
    simp only [Bool.false_eq_true, if_false]
    rcases Nat.eq_zero_or_pos m with hm | hm
    · subst hm
      simp
    · rw [if_neg (by omega : ¬ m = 0)]
      rw [ih (attempt + 1) (by omega)]
      simp only [ExecTrace.mk.injEq]
      refine ⟨trivial, by omega, trivial⟩

/-- Counterexample for C2: a step whose action kind `"zoom"` is outside
the dispatch table is *not* exempt from the retry loop — with
`retry_attempts = 3` the unsupported-action error is caught like any other
failure, so 3 attempts run and 2 retry-delay sleeps occur, contradicting
the claim that such a step fails on the first attempt with no retry and no
sleep.  (The `raise ValueError` of `main.py` line 157 sits inside the
`try` whose generic `except` drives the retries.) -/
theorem unsupported_action_is_retried :
    "zoom" ∉ actionDispatchTable ∧
    executeStep "zoom" alwaysTrue 3 =
      { attempts := 3, sleeps := 2, success := false } ∧
    ¬((executeStep "zoom" alwaysTrue 3).attempts = 1 ∧
      (executeStep "zoom" alwaysTrue 3).sleeps = 0) := by
  refine ⟨by decide, by decide, by decide⟩

/-- **C2 (amended).** For every step whose action kind is outside the
fixed dispatch table, the unsupported-action error is caught by the retry
loop like any other failure: with `retry_attempts = n` the step performs
exactly n attempts (the backend handler never runs), sleeps `retry_delay`
between consecutive attempts (n − 1 sleeps), and ends FAILED. -/
theorem unsupported_action_full_retry_trace :
    ∀ (action : String) (handler : Nat → HandlerOutcome) (n : Nat),
      action ∉ actionDispatchTable → 1 ≤ n →
      executeStep action handler n =
        { attempts := n, sleeps := n - 1, success := false } := by
  intro action handler n hact hn
  unfold executeStep
  exact execAttempts_all_fail _
    (fun a => by simp [dispatchOutcome, hact, isSuccessOutcome]) n 1 hn

/-- Witness for the amended C2, at the unsupported action kind
`"frobnicate"` with 2 retry attempts. -/
theorem unsupported_action_full_retry_trace_witness :
    "frobnicate" ∉ actionDispatchTable ∧
    executeStep "frobnicate" alwaysTrue 2 =
      { attempts := 2, sleeps := 1, success := false } :=
  ⟨by decide,
   unsupported_action_full_retry_trace "frobnicate" alwaysTrue 2 (by decide)
     (by decide)⟩

/-- **C3.** A step with `retry_attempts = n` (1 ≤ n ≤ 10) whose dispatched
handler fails on every attempt — by raising or by returning a falsy
result, which the hypothesis treats identically — performs exactly n
attempts, sleeps `retry_delay` between consecutive attempts (n − 1 sleeps,
none after the last), and ends FAILED. -/
theorem always_failing_step_trace :
    ∀ (action : String) (handler : Nat → HandlerOutcome) (n : Nat),
      1 ≤ n → n ≤ 10 → action ∈ actionDispatchTable →
      (∀ a, isSuccessOutcome (handler a) = false) →
      executeStep action handler n =
        { attempts := n, sleeps := n - 1, success := false } := by
  intro action handler n hn _ hact hfail
  unfold executeStep
  exact execAttempts_all_fail _
    (fun a => by simp [dispatchOutcome, hact, hfail a]) n 1 hn

/-- Witness for C3: a `click` step whose handler always returns a falsy
result, with 3 retry attempts. -/
theorem always_failing_step_trace_witness :
    ("click" ∈ actionDispatchTable ∧ (1 : Nat) ≤ 3 ∧ (3 : Nat) ≤ 10) ∧
    executeStep "click" alwaysFalse 3 =
      { attempts := 3, sleeps := 2, success := false } :=
  ⟨⟨by decide, by decide, by decide⟩,
   always_failing_step_trace "click" alwaysFalse 3 (by decide) (by decide)
     (by decide) (fun a => rfl)⟩

theorem executeRecipe_append (pre rest : List StepRun)
    (h : ∀ t ∈ pre, stepSucceeds t = true ∨ t.continue_on_failure = true) :
    executeRecipe (pre ++ rest) =
      ((executeRecipe rest).1, pre.length + (executeRecipe rest).2) := by
  induction pre with
  | nil => simp
  | cons s pre ih =>
    have hs := h s (List.mem_cons_self s pre)
    have hpre : ∀ t ∈ pre, stepSucceeds t = true ∨
        t.continue_on_failure = true :=
      fun t ht => h t (List.mem_cons_of_mem s ht)
    have hstep : executeRecipe ((s :: pre) ++ rest) =
        ((executeRecipe (pre ++ rest)).1,
         (executeRecipe (pre ++ rest)).2 + 1) := by
      rw [List.cons_append, executeRecipe]
      rcases hs with hs | hs
      · rw [hs]
        simp
      · by_cases hss : stepSucceeds s = true
        · rw [hss]
          simp
        · rw [Bool.not_eq_true] at hss
          rw [hss, hs]
          simp
    rw [hstep, ih hpre]
    simp only [List.length_cons, Prod.mk.injEq]
    exact ⟨trivial, by omega⟩

/-- **C4.** For every run prefix after which execution reaches a step that
ends FAILED: if that step has `continue_on_failure = true`, the
orchestrator proceeds to the next step and the run is not aborted by the
failure (the outcome is exactly that of executing the remaining steps);
if it has `continue_on_failure = false`, the run aborts at that index
with overall failure, and no later step is ever executed (the number of
executed steps is exactly the failing step's 1-based index). -/
theorem continue_on_failure_policy :
    ∀ (pre : List StepRun) (s : StepRun) (post : List StepRun),
      (∀ t ∈ pre, stepSucceeds t = true ∨ t.continue_on_failure = true) →
      stepSucceeds s = false →
      ((s.continue_on_failure = true →
          executeRecipe (pre ++ s :: post) =
            ((executeRecipe post).1,
             pre.length + 1 + (executeRecipe post).2)) ∧
       (s.continue_on_failure = false →
          executeRecipe (pre ++ s :: post) = (false, pre.length + 1))) := by
  intro pre s post hpre hs
  constructor
  · intro hc
    rw [executeRecipe_append pre (s :: post) hpre]
    rw [executeRecipe, hs]
    simp only [Bool.false_eq_true, if_false, hc, if_true]
    simp only [Prod.mk.injEq]
    exact ⟨trivial, by omega⟩
  · intro hc
    rw [executeRecipe_append pre (s :: post) hpre]
    rw [executeRecipe, hs]
    simp only [Bool.false_eq_true, if_false, hc]

/-- Witness for C4: a run consisting of one succeeding step, then a step
that fails with `continue_on_failure = false`, then one more step; the run
aborts with overall failure after executing exactly 2 steps. -/
theorem continue_on_failure_policy_witness :
    (stepSucceeds okStepFixture = true ∧
     stepSucceeds failStepFixture = false ∧
     failStepFixture.continue_on_failure = false) ∧
    executeRecipe [okStepFixture, failStepFixture, okStepFixture] =
      (false, 2) :=
  ⟨⟨by decide, by decide, by decide⟩,
   (continue_on_failure_policy [okStepFixture] failStepFixture
     [okStepFixture] (by decide) (by decide)).2 (by decide)⟩



theorem findElementLoop_eq_find (desc : ElementQuery → List Nat) (i : Int)
    (hi : 0 ≤ i) :
    ∀ qs : List ElementQuery,
      findElementLoop desc i qs =
        (qs.find? fun q => decide (i < ((desc q).length : Int))).bind
          (fun q => pyListGet (desc q) i) := by
  intro qs
  induction qs with
  | nil => rfl
  | cons q rest ih =>
    simp only [findElementLoop]
    by_cases h0 : (desc q).isEmpty = true
    · have hlen : (desc q).length = 0 := by
        rwa [List.isEmpty_iff_length_eq_zero] at h0
      have hp : decide (i < ((desc q).length : Int)) = false := by
        rw [decide_eq_false_iff_not, hlen]
        omega
      rw [if_pos h0]
      simp [List.find?_cons, hp, ih]
    · by_cases hlt : i < ((desc q).length : Int)
      · have hp : decide (i < ((desc q).length : Int)) = true := by
          rw [decide_eq_true_eq]
          exact hlt
        have hnat : i.toNat < (desc q).length := by omega
        obtain ⟨x, hx⟩ : ∃ x, pyListGet (desc q) i = some x := by
          unfold pyListGet
          rw [if_pos hi]
          exact ⟨_, List.getElem?_eq_getElem hnat⟩
        rw [if_neg h0, if_pos hlt]
        simp [List.find?_cons, hp, hx]
      · have hp : decide (i < ((desc q).length : Int)) = false := by
          rw [decide_eq_false_iff_not]
          exact hlt
        rw [if_neg h0, if_neg hlt]
        simp [List.find?_cons, hp, ih]

/-- Counterexample for C1: with selector `selFixture` (automation_id and
name set, `index = 1`) against backend `descFixture`, the automation_id
query is tried first and matches one element, and `index = 1` is out of
range for that match set; yet resolution does not fail — the loop falls
through to the lower-specificity name query and returns its second match.
This contradicts the claim that once some query matches no
lower-specificity query is attempted and that an out-of-range index makes
resolution fail outright. -/
theorem find_element_out_of_range_falls_through :
    buildSearchCriteria selFixture =
      [ElementQuery.byAutoId "a", ElementQuery.byName "n"] ∧
    descFixture (ElementQuery.byAutoId "a") = [7] ∧
    pyIndexOr selFixture.index = 1 ∧
    find_element descFixture selFixture = some 21 ∧
    find_element descFixture selFixture ≠ none := by
  refine ⟨by decide, by decide, by decide, by decide, by decide⟩

/-- **C1 (amended).** Element resolution tries the candidate queries in
the fixed specificity order (automation_id; control_type+name;
class_name+name; name; control_type) and, for a non-negative `index`,
returns the element at position `index` of the first query whose match
set has more than `index` elements.  A query whose match set is non-empty
but no larger than `index` does not stop resolution: the loop falls
through to the next candidate query, and resolution fails only when every
candidate query has been exhausted. -/
theorem find_element_first_in_range_query :
    ∀ (desc : ElementQuery → List Nat) (e : ElementSelector),
      0 ≤ pyIndexOr e.index →
      find_element desc e =
        ((buildSearchCriteria e).find? fun q =>
            decide (pyIndexOr e.index < ((desc q).length : Int))).bind
          (fun q => pyListGet (desc q) (pyIndexOr e.index)) := by
  intro desc e hi
  unfold find_element
  exact findElementLoop_eq_find desc (pyIndexOr e.index) hi
    (buildSearchCriteria e)

/-- Witness for the amended C1, at the fixture backend and selector. -/
theorem find_element_first_in_range_query_witness :
    0 ≤ pyIndexOr selFixture.index ∧
    find_element descFixture selFixture = some 21 :=
  ⟨by decide,
   (find_element_first_in_range_query descFixture selFixture
     (by decide)).trans (by decide)⟩



theorem renderAll_map_lit (vars : List (String × String)) :
    ∀ l : List Char, renderAll vars (l.map SubTok.lit) = l := by
  intro l
  induction l with
  | nil => rfl
  | cons c l ih => simp [renderAll, renderTok, ih]

theorem verbatimAll_map_lit :
    ∀ l : List Char, verbatimAll (l.map SubTok.lit) = l := by
  intro l
  induction l with
  | nil => rfl
  | cons c l ih => simp [verbatimAll, verbatimTok, ih]

theorem substChars_eq_renderAll (vars : List (String × String)) :
    ∀ (cs : List Char) (st : SubstState),
      substChars vars st cs = renderAll vars (tokenizeChars st cs) := by
  intro cs
  induction cs with
  | nil =>
    intro st
    cases st with
    | normal => rfl
    | dollar => rfl
    | name acc =>
      simp [substChars, tokenizeChars, renderAll, renderTok]
      rw [← List.map_reverse, renderAll_map_lit]
  | cons c cs ih =>
    intro st
    cases st with
    | normal =>
      by_cases hc : c = '$'
      · simp [substChars, tokenizeChars, hc, ih]
      · simp [substChars, tokenizeChars, hc, ih, renderAll, renderTok]
    | dollar =>
      by_cases hb : c = '{'
      · simp [substChars, tokenizeChars, hb, ih]
      · by_cases hd : c = '$'
        · simp [substChars, tokenizeChars, hb, hd, ih, renderAll, renderTok]
        · simp [substChars, tokenizeChars, hb, hd, ih, renderAll, renderTok]
    | name acc =>
      by_cases hc : c = '}'
      · by_cases ha : acc.isEmpty = true
        · simp [substChars, tokenizeChars, hc, ha, ih, renderAll, renderTok]
        · cases hv : varsLookup vars (String.mk acc.reverse) with
          | none =>
            simp [substChars, tokenizeChars, hc, ha, hv, ih, renderAll,
              renderTok]
          | some v =>
            simp [substChars, tokenizeChars, hc, ha, hv, ih, renderAll,
              renderTok]
      · simp [substChars, tokenizeChars, hc, ih]

theorem verbatimAll_tokenize :
    ∀ (cs : List Char) (st : SubstState),
      verbatimAll (tokenizeChars st cs) = stateRaw st ++ cs := by
  intro cs
  induction cs with
  | nil =>
    intro st
    cases st with
    | normal => rfl
    | dollar => rfl
    | name acc =>
      simp [tokenizeChars, stateRaw, verbatimAll, verbatimTok]
      rw [← List.map_reverse, verbatimAll_map_lit]
  | cons c cs ih =>
    intro st
    cases st with
    | normal =>
      by_cases hc : c = '$'
      · simp [tokenizeChars, hc, ih, stateRaw]
      · simp [tokenizeChars, hc, ih, stateRaw, verbatimAll, verbatimTok]
    | dollar =>
      by_cases hb : c = '{'
      · simp [tokenizeChars, hb, ih, stateRaw]
      · by_cases hd : c = '$'
        · simp [tokenizeChars, hb, hd, ih, stateRaw, verbatimAll,
            verbatimTok]
        · simp [tokenizeChars, hb, hd, ih, stateRaw, verbatimAll,
            verbatimTok]
    | name acc =>
      by_cases hc : c = '}'
      · by_cases ha : acc.isEmpty = true
        · have hacc : acc = [] := List.isEmpty_iff.mp ha
          subst hacc
          simp [tokenizeChars, hc, ha, ih, stateRaw, verbatimAll,
            verbatimTok]
        · simp [tokenizeChars, hc, ha, ih, stateRaw, verbatimAll,
            verbatimTok]
      · simp [tokenizeChars, hc, ih, stateRaw]

theorem renderAll_eq_verbatimAll (vars : List (String × String)) :
    ∀ ts : List SubTok, ts.all (phAbsent vars) = true →
      renderAll vars ts = verbatimAll ts := by
  intro ts
  induction ts with
  | nil => intro _; rfl
  | cons t ts ih =>
    intro hts
    rw [List.all_cons, Bool.and_eq_true] at hts
    obtain ⟨ht, hts⟩ := hts
    cases t with
    | lit c => simp [renderAll, verbatimAll, renderTok, verbatimTok, ih hts]
    | ph nm =>
      have hnone : varsLookup vars (String.mk nm) = none := by
        simpa [phAbsent, Option.isNone_iff_eq_none] using ht
      simp [renderAll, verbatimAll, renderTok, verbatimTok, hnone, ih hts]

theorem substChars_id_of_noSubst (vars : List (String × String))
    (cs : List Char) (h : noSubstitutablePh vars cs = true) :
    substChars vars .normal cs = cs := by
  rw [substChars_eq_renderAll vars cs .normal]
  rw [renderAll_eq_verbatimAll vars (tokenizeChars .normal cs) h]
  rw [verbatimAll_tokenize cs .normal]
  rfl

/-- **C7.** The substitution scan of `Recipe.substitute_variables`
replaces every regex-matched `$\x7bname\x7d` occurrence whose name is a
key of the mapping by the stringified value of that key and leaves every
occurrence with an absent name verbatim, delimiters included (first
conjunct: substitution renders the text's placeholder decomposition);
it is the identity on any text in which no substitutable placeholder
remains, hence idempotent whenever its output has no substitutable
placeholder left (second and third conjuncts); and it maps the spec's two
examples as stated (last conjuncts). -/
theorem variable_substitution_spec :
    (∀ (vars : List (String × String)) (cs : List Char),
        substChars vars .normal cs =
          renderAll vars (tokenizeChars .normal cs)) ∧
    (∀ (vars : List (String × String)) (cs : List Char),
        noSubstitutablePh vars cs = true →
        substChars vars .normal cs = cs) ∧
    (∀ (vars : List (String × String)) (cs : List Char),
        noSubstitutablePh vars (substChars vars .normal cs) = true →
        substChars vars .normal (substChars vars .normal cs) =
          substChars vars .normal cs) ∧
    substitute_variables [("name", "World")] "Hello ${name}!" =
      "Hello World!" ∧
    substitute_variables [] "Hello ${missing}!" = "Hello ${missing}!" :=
  ⟨fun vars cs => substChars_eq_renderAll vars cs .normal,
   fun vars cs h => substChars_id_of_noSubst vars cs h,
   fun vars cs h => substChars_id_of_noSubst vars _ h,
   by decide, by decide⟩

/-- Witness for C7: its identity conjunct applied to a concrete text whose
only placeholder names a variable absent from the mapping. -/
theorem variable_substitution_spec_witness :
    noSubstitutablePh [("name", "World")] ("Hello ${missing}!".data) =
      true ∧
    substChars [("name", "World")] .normal ("Hello ${missing}!".data) =
      "Hello ${missing}!".data :=
  ⟨by decide,
   variable_substitution_spec.2.1 [("name", "World")]
     ("Hello ${missing}!".data) (by decide)⟩


end Automator
